import Mathlib

/-!
Shallow embedding of the IT-support chatbot backend (src/app.py, FastAPI
variant) and proofs about its request pipeline: question validation,
language detection, translation, search with retry, context assembly,
answer generation, and per-session state (history truncation and
duplicate-question suppression).

Network calls are modelled by explicit outcome oracles: a `CallOutcome`
(for the generation service) or an `AttemptOutcome` per attempt (for the
search service), so that the control flow around the calls is embedded
exactly while the remote services stay opaque.
-/

namespace StageTI

/-- `MAX_QUESTION_LENGTH = 500` from the configuration block. -/
def MAX_QUESTION_LENGTH : Nat := 500

/-- `MAX_HISTORY_SIZE = 10` from the configuration block. -/
def MAX_HISTORY_SIZE : Nat := 10

/-- `RATE_LIMIT_SECONDS = 3` from the configuration block. -/
def RATE_LIMIT_SECONDS : Nat := 3

/-- Python whitespace characters stripped by `str.strip()`. -/
def pyIsSpace (c : Char) : Bool :=
  c == ' ' || c == '\t' || c == '\n' || c == '\x0d' || c == '\x0b' || c == '\x0c'

/-- Model of Python `str.strip()`: drop whitespace from both ends. -/
def strip (s : String) : String :=
  ⟨((s.data.dropWhile pyIsSpace).reverse.dropWhile pyIsSpace).reverse⟩

/-- Model of Python `str.lower()` (ASCII case folding, which is all the
denylist patterns need). -/
def lower (s : String) : String :=
  ⟨s.data.map Char.toLower⟩

/-- `containsSub pat l` is true when `pat` occurs as a contiguous
sublist of `l`; models the Python `in` operator on strings. -/
def containsSub (pat : List Char) : List Char → Bool
  | [] => pat.isEmpty
  | c :: cs => pat.isPrefixOf (c :: cs) || containsSub pat cs

/-- Model of Python `pat in s` for strings. -/
def strContains (s pat : String) : Bool :=
  containsSub pat.data s.data

/-- The denylist from `ChatRequest.validate_question`. -/
def dangerous : List String :=
  ["<script>", "javascript:", "DROP TABLE", "DELETE FROM"]

/-- Reasons a `ChatRequest` can be rejected: the pydantic `Field`
bounds `min_length=1` / `max_length=MAX_QUESTION_LENGTH` (checked on the
raw text, before the custom validator runs), or the denylist check of
`validate_question`. -/
inductive ValidationError where
  | tooShort
  | tooLong
  | suspicious
deriving Repr, DecidableEq

/-- Model of `ChatRequest` question validation: the pydantic field
constraints on the raw string, then `validate_question` which strips the
value and rejects it when a denylisted pattern occurs case-insensitively;
the accepted value is the stripped text. -/
def validate_question (v : String) : Except ValidationError String :=
  if v.length < 1 then .error .tooShort
  else if v.length > MAX_QUESTION_LENGTH then .error .tooLong
  else
    let s := strip v
    if dangerous.any (fun pat => strContains (lower s) (lower pat)) then
      .error .suspicious
    else
      .ok s

/-- Model of `detect_language`: the seeded `langdetect` call is an oracle
`det` (`none` models a raised exception); the function maps its result to
the two supported locales, defaulting to English. -/
def detect_language (det : String → Option String) (text : String) : String :=
  match det (strip text) with
  | some d => if d == "fr" then "fr" else "en"
  | none => "en"

/-- Outcome of one HTTP call to the generation service (translation or
answer generation): timeout, an HTTP error status, a body the response
parsing code cannot index into, or a successful content string. -/
inductive CallOutcome where
  | timeout
  | httpError (status : Nat)
  | malformed
  | success (content : String)
deriving Repr, DecidableEq

/-- A `CallOutcome` that makes the surrounding Python raise. -/
def CallOutcome.isFailure : CallOutcome → Bool
  | .success _ => false
  | _ => true

/-- Model of `translate_to_english`. Returns the text the pipeline will
use plus a flag recording whether the network call was issued. When the
detected language is English the input is returned before any request is
built; otherwise every failure of the call falls back to the original
question. -/
def translate_to_english (det : String → Option String) (outcome : CallOutcome)
    (question : String) : String × Bool :=
  if detect_language det question == "en" then
    (question, false)
  else
    match outcome with
    | .success content => (strip content, true)
    | _ => (question, true)

/-- A search hit as consumed by the orchestrator: `doc.get('title', …)`
models the title as optional, `doc.get('content', '')` the content. -/
structure SearchDoc where
  title : Option String
  content : String
deriving Repr, DecidableEq

/-- The parsed search response body, field `value`. -/
structure SearchResults where
  value : List SearchDoc
deriving Repr, DecidableEq

/-- Outcome of one attempt inside the `search_documents` retry loop:
HTTP 429 with a retry hint, a timeout, any other raising failure
(`raise_for_status` or otherwise), or a parsed response. -/
inductive AttemptOutcome where
  | rateLimited (retryAfter : Nat)
  | timeout
  | failure
  | success (results : SearchResults)
deriving Repr, DecidableEq

/-- Errors `search_documents` can raise to its caller. -/
inductive SearchError where
  | timeout
  | other
deriving Repr, DecidableEq

/-- The body of the `for attempt in range(max_retries)` loop of
`search_documents`, one list element per remaining attempt: 429 sleeps
and continues, a timeout re-raises only on the last attempt, any other
failure re-raises immediately, and falling out of the loop returns
`{"value": []}`. -/
def searchAttempts : List AttemptOutcome → Except SearchError SearchResults
  | [] => .ok ⟨[]⟩
  | o :: rest =>
    match o with
    | .rateLimited _ => searchAttempts rest
    | .timeout => if rest.isEmpty then .error .timeout else searchAttempts rest
    | .failure => .error .other
    | .success results => .ok results

/-- `max_retries = 3` in `search_documents`. -/
def max_retries : Nat := 3

/-- Model of `search_documents query`: runs the retry loop over the
outcomes of attempts `0, 1, 2`. -/
def search_documents (query : String) (attempt : Nat → AttemptOutcome) :
    Except SearchError SearchResults :=
  searchAttempts ((List.range max_retries).map attempt)

/-- One chat turn, `{"role": …, "content": …}`. -/
structure Turn where
  role : String
  content : String
deriving Repr, DecidableEq

/-- Per-session state kept in `sessions_store`. -/
structure Session where
  chat_history : List Turn
  last_question : Option String
  last_time : Option Nat
  created_at : Nat
deriving Repr, DecidableEq

/-- The fresh session built by `get_or_create_session`. -/
def freshSession (now : Nat) : Session :=
  { chat_history := [], last_question := none, last_time := none, created_at := now }

/-- Python `chat_history[-n:]`: keep the last `n` elements. -/
def takeLast (n : Nat) (l : List Turn) : List Turn :=
  l.drop (l.length - n)

/-- The duplicate check at the top of `chat`: the stored last question
equals the incoming one, a last time is recorded, and strictly less than
`RATE_LIMIT_SECONDS` have elapsed. -/
def is_duplicate (s : Session) (question : String) (now : Nat) : Bool :=
  match s.last_question, s.last_time with
  | some q, some t => q == question && decide (now - t < RATE_LIMIT_SECONDS)
  | _, _ => false

/-- One labeled context section,
`"[Document: <title or N/A>]\n<content>"`. -/
def formatDoc (doc : SearchDoc) : String :=
  "[Document: " ++ doc.title.getD "N/A" ++ "]\n" ++ doc.content

/-- One source label, `doc.get('title', 'Document sans titre')`. -/
def sourceTitle (doc : SearchDoc) : String :=
  doc.title.getD "Document sans titre"

/-- Model of Python `sep.join(l)`. -/
def joinSep (sep : String) : List String → String
  | [] => ""
  | [x] => x
  | x :: xs => x ++ sep ++ joinSep sep xs

/-- The context block built in `chat` step 3: the first three documents,
each rendered by `formatDoc`, joined by a blank line; empty when there
are no documents. -/
def build_context (documents : List SearchDoc) : String :=
  if documents.isEmpty then ""
  else joinSep "\n\n" ((documents.take 3).map formatDoc)

/-- The sources list built alongside the context. -/
def build_sources (documents : List SearchDoc) : List String :=
  if documents.isEmpty then []
  else (documents.take 3).map sourceTitle

/-- Canned generation-timeout apology, French branch. -/
def genTimeoutFr : String := "Désolé, le service met trop de temps. Réessayez."

/-- Canned generation-timeout apology, English branch. -/
def genTimeoutEn : String := "Sorry, service timeout. Please retry."

/-- Model of `generate_answer`: detects the question language, then the
call outcome decides the result — success returns the stripped content,
a timeout returns the canned language-matched apology, and anything else
raises. -/
def generate_answer (det : String → Option String) (outcome : CallOutcome)
    (context question : String) (chat_history : List Turn) :
    Except Unit String :=
  let user_lang := detect_language det question
  match outcome with
  | .success content => .ok (strip content)
  | .timeout => .ok (if user_lang == "fr" then genTimeoutFr else genTimeoutEn)
  | .httpError _ => .error ()
  | .malformed => .error ()

/-- Duplicate-question message, French branch. -/
def duplicateMsgFr : String :=
  "Veuillez attendre quelques secondes avant de soumettre la même question."

/-- Duplicate-question message, English branch. -/
def duplicateMsgEn : String :=
  "Please wait a few seconds before submitting the same question."

/-- Canned no-context answer, French branch. -/
def noContextAnswerFr : String :=
  "Je n\x27ai pas trouvé d\x27information pertinente dans ma base de connaissances IT. Pouvez-vous reformuler ou contacter le support au poste 5555?"

/-- Canned no-context answer, English branch. -/
def noContextAnswerEn : String :=
  "I couldn\x27t find relevant information in my IT knowledge base. Could you rephrase or contact support at extension 5555?"

/-- The session mutation at the end of `chat`: append the user and
assistant turns, truncate the history to the sliding window of
`MAX_HISTORY_SIZE * 2` entries keeping the most recent, and update
`last_question` / `last_time`. -/
def update_session (s : Session) (question answer : String) (now : Nat) : Session :=
  let h1 := s.chat_history ++ [⟨"user", question⟩, ⟨"assistant", answer⟩]
  let h2 := if h1.length > MAX_HISTORY_SIZE * 2 then takeLast (MAX_HISTORY_SIZE * 2) h1 else h1
  { s with chat_history := h2, last_question := some question, last_time := some now }

/-- The body of a successful `ChatResponse` (the session id is handled
by the store, not the pipeline). -/
structure ChatResponse where
  answer : String
  language : String
  sources : List String
deriving Repr, DecidableEq

/-- Errors escaping the pipeline of `chat`: the duplicate 429, a search
failure, or a non-timeout generation failure. -/
inductive ChatError where
  | rateLimited (msg : String)
  | searchFailed (e : SearchError)
  | genFailed
deriving Repr, DecidableEq

/-- Observable result of one `chat` invocation: the response or error,
the session state afterwards, and whether the generation collaborator
was invoked. -/
structure StepOut where
  result : Except ChatError ChatResponse
  session : Session
  generationCalled : Bool

/-- Model of the `chat` endpoint pipeline on an already-validated
question: duplicate check, translation, search, context assembly, the
canned-answer short-circuit or generation, then the session update. -/
def chat_step (det : String → Option String) (transOutcome : CallOutcome)
    (searchAttempt : Nat → AttemptOutcome) (genOutcome : CallOutcome)
    (s : Session) (question : String) (now : Nat) : StepOut :=
  let user_lang := detect_language det question
  if is_duplicate s question now then
    { result := .error (.rateLimited (if user_lang == "fr" then duplicateMsgFr else duplicateMsgEn)),
      session := s,
      generationCalled := false }
  else
    let translated_query := (translate_to_english det transOutcome question).1
    match search_documents translated_query searchAttempt with
    | .error e => { result := .error (.searchFailed e), session := s, generationCalled := false }
    | .ok results =>
      let documents := results.value
      let context := build_context documents
      let sources := build_sources documents
      if strip context == "" then
        let answer := if user_lang == "fr" then noContextAnswerFr else noContextAnswerEn
        { result := .ok { answer := answer, language := user_lang, sources := sources },
          session := update_session s question answer now,
          generationCalled := false }
      else
        match generate_answer det genOutcome context question s.chat_history with
        | .error _ => { result := .error .genFailed, session := s, generationCalled := true }
        | .ok answer =>
          { result := .ok { answer := answer, language := user_lang, sources := sources },
            session := update_session s question answer now,
            generationCalled := true }

/-- An attempt outcome the loop retries past: a 429 or a non-final
timeout. -/
def retryable (o : AttemptOutcome) : Prop :=
  o = .timeout ∨ ∃ r, o = .rateLimited r

/-- A sequence of recorded turns `(question, answer, time)` applied to a
session through the session-update code of `chat`. -/
def applyTurns (s : Session) : List (String × String × Nat) → Session
  | [] => s
  | (q, a, t) :: rest => applyTurns (update_session s q a t) rest

/-! ## Helper lemmas -/

/-- The retry loop of `search_documents` runs over exactly the outcomes
of attempts `0`, `1`, `2`. -/
theorem search_documents_eq (query : String) (att : Nat → AttemptOutcome) :
    search_documents query att = searchAttempts [att 0, att 1, att 2] := rfl

/-- One session update always leaves the history within the sliding
window, whatever its length before. -/
theorem update_session_history_le (s : Session) (q a : String) (now : Nat) :
    (update_session s q a now).chat_history.length ≤ MAX_HISTORY_SIZE * 2 := by
  simp only [update_session, takeLast]
  split
  · simp only [List.length_drop]
    omega
  · simp only [List.length_append, List.length_cons, List.length_nil, MAX_HISTORY_SIZE] at *
    omega

/-- One session update keeps a suffix of the old history plus the two
new turns: nothing is reordered and only the oldest turns are dropped. -/
theorem update_session_history_suffix (s : Session) (q a : String) (now : Nat) :
    List.IsSuffix (update_session s q a now).chat_history
      (s.chat_history ++ [⟨"user", q⟩, ⟨"assistant", a⟩]) := by
  simp only [update_session, takeLast]
  split
  · exact List.drop_suffix _ _
  · exact List.suffix_rfl

/-- The two freshly appended turns survive truncation: the updated
history always ends with the user turn then the assistant turn. -/
theorem update_session_history_ends (s : Session) (q a : String) (now : Nat) :
    ∃ rest, (update_session s q a now).chat_history =
      rest ++ [⟨"user", q⟩, ⟨"assistant", a⟩] := by
  simp only [update_session, takeLast]
  split
  · rw [List.drop_append_of_le_length (by simp only [List.length_append,
      List.length_cons, List.length_nil, MAX_HISTORY_SIZE]; omega)]
    exact ⟨_, rfl⟩
  · exact ⟨s.chat_history, rfl⟩

/-- After a session update the duplicate check fires for the same
question inside the window. -/
theorem is_duplicate_after_update (s : Session) (q a : String) (now now2 : Nat)
    (h : now2 - now < RATE_LIMIT_SECONDS) :
    is_duplicate (update_session s q a now) q now2 = true := by
  simp [is_duplicate, update_session, h]

/-- The duplicate branch of `chat_step`, in full. -/
theorem chat_step_duplicate_branch (det : String → Option String) (tO : CallOutcome)
    (sO : Nat → AttemptOutcome) (gO : CallOutcome) (s : Session) (q : String) (now : Nat)
    (h : is_duplicate s q now = true) :
    chat_step det tO sO gO s q now =
      { result := .error (.rateLimited
          (if detect_language det q == "fr" then duplicateMsgFr else duplicateMsgEn)),
        session := s,
        generationCalled := false } := by
  simp [chat_step, h]

/-- The empty-search branch of `chat_step`, in full: the canned
localized answer, no generation call, and the normal session update. -/
theorem chat_step_empty_branch (det : String → Option String) (tO : CallOutcome)
    (sO : Nat → AttemptOutcome) (gO : CallOutcome) (s : Session) (q : String) (now : Nat)
    (hdup : is_duplicate s q now = false)
    (hsearch : search_documents (translate_to_english det tO q).1 sO = .ok ⟨[]⟩) :
    chat_step det tO sO gO s q now =
      { result := .ok
          { answer := if detect_language det q == "fr" then noContextAnswerFr else noContextAnswerEn,
            language := detect_language det q,
            sources := [] },
        session := update_session s q
          (if detect_language det q == "fr" then noContextAnswerFr else noContextAnswerEn) now,
        generationCalled := false } := by
  simp only [chat_step, hdup, Bool.false_eq_true, if_false, hsearch]
  rfl

/-- When the duplicate check does not fire, `chat_step` never produces
the rate-limited error. -/
theorem chat_step_not_rate_limited (det : String → Option String) (tO : CallOutcome)
    (sO : Nat → AttemptOutcome) (gO : CallOutcome) (s : Session) (q : String) (now : Nat)
    (h : is_duplicate s q now = false) (msg : String) :
    (chat_step det tO sO gO s q now).result ≠ .error (.rateLimited msg) := by
  simp only [chat_step, h, Bool.false_eq_true, if_false]
  cases hsd : search_documents (translate_to_english det tO q).1 sO with
  | error e => simp
  | ok results =>
    simp only
    split
    · simp
    · cases hg : generate_answer det gO (build_context results.value) q s.chat_history <;> simp

/-- The duplicate check fires exactly when the stored last question
matches and strictly less than the window has elapsed. -/
theorem is_duplicate_iff (s : Session) (q : String) (now : Nat) :
    is_duplicate s q now = true ↔
      (s.last_question = some q ∧
        ∃ t, s.last_time = some t ∧ now - t < RATE_LIMIT_SECONDS) := by
  unfold is_duplicate
  cases hq : s.last_question <;> cases ht : s.last_time <;> simp

/-! ## Claim theorems -/

/-- Claim C1, counterexample: when every one of the three attempts is
answered with HTTP 429, `search_documents` falls out of the retry loop
and returns the empty result set `{"value": []}` instead of propagating
an error, contradicting the claim that on exhaustion of the attempt
budget the final failure propagates and an empty result set is never
returned in place of an error. -/
theorem search_documents_exhausted_429_returns_empty :
    search_documents "q" (fun _ => .rateLimited 5) = .ok ⟨[]⟩ ∧
    ∀ e, search_documents "q" (fun _ => .rateLimited 5) ≠ .error e := by
  exact ⟨rfl, fun e h => by cases h⟩

/-- Claim C1 (amended): `search_documents` consults at most 3 attempts;
a timeout is retried and re-raised on the final attempt; any other
HTTP error propagates immediately without retry; but when all three
attempts are consumed by 429 rate-limit responses the function returns
the empty result set instead of an error. -/
theorem search_documents_retry_policy (q : String) (att : Nat → AttemptOutcome) :
    (∀ att2 : Nat → AttemptOutcome, (∀ i, i < max_retries → att i = att2 i) →
      search_documents q att = search_documents q att2) ∧
    (att 0 = .failure → search_documents q att = .error .other) ∧
    (∀ r, att 0 = .rateLimited r → att 1 = .failure →
      search_documents q att = .error .other) ∧
    (∀ res, att 0 = .timeout → att 1 = .success res →
      search_documents q att = .ok res) ∧
    ((∀ i, i < max_retries - 1 → retryable (att i)) →
      att (max_retries - 1) = .timeout → search_documents q att = .error .timeout) ∧
    ((∀ i, i < max_retries → ∃ r, att i = .rateLimited r) →
      search_documents q att = .ok ⟨[]⟩) := by
  refine ⟨?_, ?_, ?_, ?_, ?_, ?_⟩
  · intro att2 h
    rw [search_documents_eq, search_documents_eq,
      h 0 (by simp [max_retries]), h 1 (by simp [max_retries]), h 2 (by simp [max_retries])]
  · intro h0
    rw [search_documents_eq, h0]
    rfl
  · intro r h0 h1
    rw [search_documents_eq, h0, h1]
    rfl
  · intro res h0 h1
    rw [search_documents_eq, h0, h1]
    rfl
  · intro hr hlast
    simp only [max_retries] at hr hlast
    have h0 := hr 0 (by omega)
    have h1 := hr 1 (by omega)
    rcases h0 with h0 | ⟨r0, h0⟩ <;> rcases h1 with h1 | ⟨r1, h1⟩ <;>
      rw [search_documents_eq, h0, h1, hlast] <;> rfl
  · intro h
    simp only [max_retries] at h
    obtain ⟨r0, h0⟩ := h 0 (by omega)
    obtain ⟨r1, h1⟩ := h 1 (by omega)
    obtain ⟨r2, h2⟩ := h 2 (by omega)
    rw [search_documents_eq, h0, h1, h2]
    rfl

/-- Claim C1, witness: the retry policy evaluated on concrete attempt
sequences — a timeout on the first attempt followed by a success is
retried into that success; timeouts through the final attempt re-raise;
a non-timeout failure on the first attempt propagates immediately. -/
theorem search_documents_retry_policy_witness :
    search_documents "q" (fun i => if i = 0 then .timeout else .success ⟨[]⟩) = .ok ⟨[]⟩ ∧
    search_documents "q" (fun _ => .timeout) = .error .timeout ∧
    search_documents "q" (fun _ => .failure) = .error .other := by
  refine ⟨?_, ?_, ?_⟩
  · exact (search_documents_retry_policy "q" _).2.2.2.1 ⟨[]⟩ rfl rfl
  · exact (search_documents_retry_policy "q" _).2.2.2.2.1
      (fun i _ => Or.inl rfl) rfl
  · exact (search_documents_retry_policy "q" _).2.1 rfl

/-- Claim C5, counterexample: a whitespace-only question is NOT
rejected — the pydantic length bounds see the raw string (length 3) and
the validator strips it to the empty string and accepts it, although it
is empty after trimming. -/
theorem validate_question_whitespace_accepted :
    validate_question "   " = .ok "" := rfl

/-- Claim C5 (amended): a question is rejected if and only if it is
empty before trimming, its raw length exceeds `MAX_QUESTION_LENGTH`, or
after trimming it contains a denylisted dangerous substring compared
case-insensitively; every other question is accepted, and the accepted
value is exactly the trimmed text (no other sanitization). In
particular a whitespace-only question is accepted as the empty string
rather than rejected. -/
theorem validate_question_spec (v : String) :
    ((validate_question v).isOk = true ↔
      (1 ≤ v.length ∧ v.length ≤ MAX_QUESTION_LENGTH ∧
        ∀ pat ∈ dangerous, strContains (lower (strip v)) (lower pat) = false)) ∧
    (∀ r, validate_question v = .ok r → r = strip v) := by
  constructor
  · by_cases h1 : v.length < 1
    · simp only [validate_question, if_pos h1, Except.isOk]
      constructor
      · intro h
        cases h
      · rintro ⟨ha, -⟩
        omega
    · by_cases h2 : v.length > MAX_QUESTION_LENGTH
      · simp only [validate_question, if_neg h1, if_pos h2, Except.isOk]
        constructor
        · intro h
          cases h
        · rintro ⟨-, hb, -⟩
          omega
      · by_cases h3 : dangerous.any (fun pat => strContains (lower (strip v)) (lower pat))
        · simp only [validate_question, if_neg h1, if_neg h2, if_pos h3, Except.isOk]
          constructor
          · intro h
            cases h
          · rintro ⟨-, -, hall⟩
            obtain ⟨pat, hmem, hc⟩ := List.any_eq_true.mp h3
            exact absurd (hall pat hmem) (by simp [hc])
        · simp only [validate_question, if_neg h1, if_neg h2, if_neg h3, Except.isOk]
          refine iff_of_true rfl ⟨by omega, by omega, ?_⟩
          intro pat hmem
          rw [List.any_eq_true] at h3
          push_neg at h3
          simpa using h3 pat hmem
  · intro r hr
    simp only [validate_question] at hr
    split at hr
    · cases hr
    · split at hr
      · cases hr
      · split at hr
        · cases hr
        · cases hr
          rfl

/-- Claim C5, witness: the characterization evaluated on a normal
accepted question and on a denylisted one. -/
theorem validate_question_spec_witness :
    ((validate_question "How do I reset my password?").isOk = true ↔
      (1 ≤ ("How do I reset my password?").length ∧
        ("How do I reset my password?").length ≤ MAX_QUESTION_LENGTH ∧
        ∀ pat ∈ dangerous,
          strContains (lower (strip "How do I reset my password?")) (lower pat) = false)) ∧
    ∀ r, validate_question "  hi  " = .ok r → r = strip "  hi  " := by
  exact ⟨(validate_question_spec "How do I reset my password?").1,
    (validate_question_spec "  hi  ").2⟩

/-- Claim C7: context assembly uses at most the first 3 hits in order,
renders each as a labeled section joined by blank lines, and the sources
list is the parallel list of titles (with placeholder) whose length
equals the number of context sections and never exceeds 3; with no hits
both outputs are empty. -/
theorem context_assembly_spec (documents : List SearchDoc) :
    build_context documents = joinSep "\n\n" ((documents.take 3).map formatDoc) ∧
    build_sources documents = (documents.take 3).map sourceTitle ∧
    (build_sources documents).length = ((documents.take 3).map formatDoc).length ∧
    (build_sources documents).length ≤ 3 ∧
    build_context documents = build_context (documents.take 3) ∧
    build_sources documents = build_sources (documents.take 3) ∧
    build_context [] = "" ∧
    build_sources ([] : List SearchDoc) = [] := by
  refine ⟨?_, ?_, ?_, ?_, ?_, ?_, rfl, rfl⟩
  · cases documents <;> simp [build_context, joinSep]
  · cases documents <;> simp [build_sources]
  · cases documents <;> simp [build_sources]
  · cases documents <;> simp [build_sources, List.length_take]
  · cases documents <;> simp [build_context, List.take_take]
  · cases documents <;> simp [build_sources, List.take_take]

/-- Folding any number of recorded turns keeps the history within the
sliding window. -/
theorem applyTurns_history_le (turns : List (String × String × Nat)) (s : Session)
    (h : s.chat_history.length ≤ MAX_HISTORY_SIZE * 2) :
    (applyTurns s turns).chat_history.length ≤ MAX_HISTORY_SIZE * 2 := by
  induction turns generalizing s with
  | nil => exact h
  | cons t rest ih =>
    obtain ⟨q, a, time⟩ := t
    exact ih (update_session s q a time) (update_session_history_le s q a time)

/-- Claim C2: the stored chat history length is at most
`2 * MAX_HISTORY_SIZE` after any number of recorded turns, each update
keeps only a suffix (the most recent turns) of the old history plus the
two new turns, and the session produced by a full `chat_step` also
respects the bound. -/
theorem chat_history_sliding_window (s : Session) (turns : List (String × String × Nat))
    (h : s.chat_history.length ≤ 2 * MAX_HISTORY_SIZE) :
    (applyTurns s turns).chat_history.length ≤ 2 * MAX_HISTORY_SIZE ∧
    (∀ q a now, List.IsSuffix (update_session s q a now).chat_history
      (s.chat_history ++ [⟨"user", q⟩, ⟨"assistant", a⟩])) ∧
    (∀ det tO sO gO q now,
      (chat_step det tO sO gO s q now).session.chat_history.length ≤ 2 * MAX_HISTORY_SIZE) := by
  refine ⟨?_, fun q a now => update_session_history_suffix s q a now, ?_⟩
  · have := applyTurns_history_le turns s (by omega)
    omega
  · intro det tO sO gO q now
    by_cases hdup : is_duplicate s q now
    · rw [chat_step_duplicate_branch det tO sO gO s q now hdup]
      exact h
    · simp only [chat_step, hdup, Bool.false_eq_true, if_false]
      cases hsd : search_documents (translate_to_english det tO q).1 sO with
      | error e => simpa using h
      | ok results =>
        simp only
        split
        · exact update_session_history_le s q
            (if detect_language det q == "fr" then noContextAnswerFr else noContextAnswerEn) now
        · cases hg : generate_answer det gO (build_context results.value) q s.chat_history with
          | error e => simpa using h
          | ok ans =>
            simp only [hg]
            exact update_session_history_le s q ans now

/-- Claim C2, witness: the bound evaluated after eleven recorded turns
on an initially fresh session (22 raw turns, truncated to 20). -/
theorem chat_history_sliding_window_witness :
    (applyTurns (freshSession 0)
      ((List.range 11).map (fun i => ("q", "a", i)))).chat_history.length ≤
        2 * MAX_HISTORY_SIZE :=
  (chat_history_sliding_window (freshSession 0) _ (by simp [freshSession])).1

/-- Claim C3: a chat request is rejected with the localized rate-limited
error if and only if the question equals the stored last question and
strictly less than `RATE_LIMIT_SECONDS` have elapsed since the stored
last time; once the window has elapsed (or the duplicate condition fails
in any other way) the same question proceeds normally, shown here on the
empty-search pipeline. -/
theorem duplicate_rejection_iff (det : String → Option String) (tO : CallOutcome)
    (sO : Nat → AttemptOutcome) (gO : CallOutcome) (s : Session) (q : String) (now : Nat) :
    ((∃ msg, (chat_step det tO sO gO s q now).result = .error (.rateLimited msg)) ↔
      (s.last_question = some q ∧
        ∃ t, s.last_time = some t ∧ now - t < RATE_LIMIT_SECONDS)) ∧
    (is_duplicate s q now = true →
      (chat_step det tO sO gO s q now).result = .error (.rateLimited
        (if detect_language det q == "fr" then duplicateMsgFr else duplicateMsgEn))) ∧
    (¬ (s.last_question = some q ∧
        ∃ t, s.last_time = some t ∧ now - t < RATE_LIMIT_SECONDS) →
      sO 0 = .success ⟨[]⟩ →
      (chat_step det tO sO gO s q now).result = .ok
        { answer := if detect_language det q == "fr" then noContextAnswerFr else noContextAnswerEn,
          language := detect_language det q,
          sources := [] }) := by
  have hsearch : ∀ _h : sO 0 = .success ⟨[]⟩,
      search_documents (translate_to_english det tO q).1 sO = .ok ⟨[]⟩ := by
    intro h
    rw [search_documents_eq, h]
    rfl
  refine ⟨⟨?_, ?_⟩, ?_, ?_⟩
  · intro ⟨msg, hmsg⟩
    by_cases hdup : is_duplicate s q now
    · exact (is_duplicate_iff s q now).mp hdup
    · exact absurd hmsg
        (chat_step_not_rate_limited det tO sO gO s q now (by simpa using hdup) msg)
  · intro hcond
    have hdup : is_duplicate s q now = true := (is_duplicate_iff s q now).mpr hcond
    rw [chat_step_duplicate_branch det tO sO gO s q now hdup]
    exact ⟨_, rfl⟩
  · intro hdup
    rw [chat_step_duplicate_branch det tO sO gO s q now hdup]
  · intro hcond hs0
    have hdup : is_duplicate s q now = false := by
      rcases h : is_duplicate s q now
      · rfl
      · exact absurd ((is_duplicate_iff s q now).mp h) hcond
    rw [chat_step_empty_branch det tO sO gO s q now hdup (hsearch hs0)]

/-- Claim C3, witness: the same question resubmitted 1 second after
being recorded is rejected with the English rate-limit message, and
resubmitted 4 seconds after it succeeds with the canned answer. -/
theorem duplicate_rejection_iff_witness :
    (chat_step (fun _ => some "en") .timeout (fun _ => .success ⟨[]⟩) .timeout
      { chat_history := [], last_question := some "hi", last_time := some 10, created_at := 0 }
      "hi" 11).result = .error (.rateLimited duplicateMsgEn) ∧
    (chat_step (fun _ => some "en") .timeout (fun _ => .success ⟨[]⟩) .timeout
      { chat_history := [], last_question := some "hi", last_time := some 10, created_at := 0 }
      "hi" 14).result = .ok
        { answer := noContextAnswerEn, language := "en", sources := [] } := by
  constructor
  · exact (duplicate_rejection_iff (fun _ => some "en") .timeout (fun _ => .success ⟨[]⟩)
      .timeout _ "hi" 11).2.1 (by decide)
  · exact (duplicate_rejection_iff (fun _ => some "en") .timeout (fun _ => .success ⟨[]⟩)
      .timeout _ "hi" 14).2.2
      (by
        rintro ⟨-, t, ht, hlt⟩
        injection ht with ht2
        subst ht2
        simp [RATE_LIMIT_SECONDS] at hlt)
      rfl

/-- Claim C4: when a request is rejected as a duplicate the session is
left entirely unchanged — no turns are appended and `last_question` and
`last_time` keep their prior values — and the generation collaborator is
not invoked. -/
theorem duplicate_no_mutation (det : String → Option String) (tO : CallOutcome)
    (sO : Nat → AttemptOutcome) (gO : CallOutcome) (s : Session) (q : String) (now : Nat)
    (h : is_duplicate s q now = true) :
    (chat_step det tO sO gO s q now).session = s ∧
    (chat_step det tO sO gO s q now).session.chat_history = s.chat_history ∧
    (chat_step det tO sO gO s q now).session.last_question = s.last_question ∧
    (chat_step det tO sO gO s q now).session.last_time = s.last_time ∧
    (chat_step det tO sO gO s q now).generationCalled = false ∧
    (chat_step det tO sO gO s q now).result = .error (.rateLimited
      (if detect_language det q == "fr" then duplicateMsgFr else duplicateMsgEn)) := by
  rw [chat_step_duplicate_branch det tO sO gO s q now h]
  exact ⟨rfl, rfl, rfl, rfl, rfl, rfl⟩

/-- Claim C4, witness: a concrete duplicate submission leaves the
concrete session untouched. -/
theorem duplicate_no_mutation_witness :
    (chat_step (fun _ => some "fr") .timeout (fun _ => .success ⟨[]⟩) .timeout
      { chat_history := [⟨"user", "salut"⟩], last_question := some "salut",
        last_time := some 100, created_at := 0 } "salut" 102).session =
      { chat_history := [⟨"user", "salut"⟩], last_question := some "salut",
        last_time := some 100, created_at := 0 } :=
  (duplicate_no_mutation (fun _ => some "fr") .timeout (fun _ => .success ⟨[]⟩) .timeout
    _ "salut" 102 (by decide)).1

/-- Claim C6: when the search yields no hits, the response answer is the
canned out-of-scope message in the detected language (French for `fr`,
English otherwise), the sources list is empty, and the generation
collaborator is never invoked. -/
theorem empty_context_canned_answer (det : String → Option String) (tO : CallOutcome)
    (sO : Nat → AttemptOutcome) (gO : CallOutcome) (s : Session) (q : String) (now : Nat)
    (hdup : is_duplicate s q now = false)
    (hsearch : search_documents (translate_to_english det tO q).1 sO = .ok ⟨[]⟩) :
    (chat_step det tO sO gO s q now).result = .ok
      { answer := if detect_language det q == "fr" then noContextAnswerFr else noContextAnswerEn,
        language := detect_language det q,
        sources := [] } ∧
    (chat_step det tO sO gO s q now).generationCalled = false := by
  rw [chat_step_empty_branch det tO sO gO s q now hdup hsearch]
  exact ⟨rfl, rfl⟩

/-- Claim C6, witness: a concrete French question whose search comes
back empty gets the French canned answer and no generation call. -/
theorem empty_context_canned_answer_witness :
    (chat_step (fun _ => some "fr") (.success "translated") (fun _ => .success ⟨[]⟩)
      (.success "unused") (freshSession 0) "Comment réinitialiser mon mot de passe?" 5).result =
      .ok { answer := noContextAnswerFr, language := "fr", sources := [] } ∧
    (chat_step (fun _ => some "fr") (.success "translated") (fun _ => .success ⟨[]⟩)
      (.success "unused") (freshSession 0) "Comment réinitialiser mon mot de passe?" 5).generationCalled = false :=
  empty_context_canned_answer (fun _ => some "fr") (.success "translated")
    (fun _ => .success ⟨[]⟩) (.success "unused") (freshSession 0)
    "Comment réinitialiser mon mot de passe?" 5 rfl rfl

/-- Claim C8: `translate_to_english` returns its input unchanged with no
network call when detection classifies the question as English, and on
any failure of the translation call (timeout, HTTP error, malformed
body) it returns the original question instead of propagating. -/
theorem translate_fail_open (det : String → Option String) (outcome : CallOutcome)
    (q : String) :
    (detect_language det q = "en" →
      translate_to_english det outcome q = (q, false)) ∧
    (outcome.isFailure = true → (translate_to_english det outcome q).1 = q) := by
  constructor
  · intro h
    simp [translate_to_english, h]
  · intro h
    unfold translate_to_english
    by_cases hen : detect_language det q == "en"
    · simp [hen]
    · cases outcome <;> simp_all [CallOutcome.isFailure, hen]

/-- Claim C8, witness: an English question is passed through with no
call; a French question whose translation times out falls back to the
original text. -/
theorem translate_fail_open_witness :
    translate_to_english (fun _ => some "en") .timeout "hello" = ("hello", false) ∧
    (translate_to_english (fun _ => some "fr") .timeout "bonjour").1 = "bonjour" :=
  ⟨(translate_fail_open (fun _ => some "en") .timeout "hello").1 rfl,
   (translate_fail_open (fun _ => some "fr") .timeout "bonjour").2 rfl⟩

/-- Claim C9: on a timeout of the generation call, `generate_answer`
returns the canned apology matched to the detected language of the
question and never raises; on any other failure of the call the error
propagates; on success the stripped content is returned. -/
theorem generate_answer_timeout_spec (det : String → Option String) (outcome : CallOutcome)
    (context question : String) (history : List Turn) :
    (outcome = .timeout →
      generate_answer det outcome context question history =
        .ok (if detect_language det question == "fr" then genTimeoutFr else genTimeoutEn)) ∧
    (∀ status, outcome = .httpError status →
      generate_answer det outcome context question history = .error ()) ∧
    (outcome = .malformed →
      generate_answer det outcome context question history = .error ()) ∧
    (∀ content, outcome = .success content →
      generate_answer det outcome context question history = .ok (strip content)) := by
  refine ⟨?_, ?_, ?_, ?_⟩
  · rintro rfl
    rfl
  · rintro status rfl
    rfl
  · rintro rfl
    rfl
  · rintro content rfl
    rfl

/-- Claim C9, witness: a timed-out generation for a French question
returns the French apology; an HTTP 500 propagates as an error. -/
theorem generate_answer_timeout_spec_witness :
    generate_answer (fun _ => some "fr") .timeout "ctx" "bonjour" [] = .ok genTimeoutFr ∧
    generate_answer (fun _ => some "fr") (.httpError 500) "ctx" "bonjour" [] = .error () :=
  ⟨(generate_answer_timeout_spec (fun _ => some "fr") .timeout "ctx" "bonjour" []).1 rfl,
   (generate_answer_timeout_spec (fun _ => some "fr") (.httpError 500) "ctx" "bonjour" []).2.1
     500 rfl⟩

/-- Claim C10: on the empty-context path the session is mutated exactly
as on the normal path — the question and the canned answer are appended
as the two newest turns and `last_question` / `last_time` are updated —
so resubmitting the same question within the rate-limit window is then
rejected as a duplicate with the session left unchanged. -/
theorem empty_context_updates_session (det : String → Option String) (tO : CallOutcome)
    (sO : Nat → AttemptOutcome) (gO : CallOutcome) (s : Session) (q : String) (now : Nat)
    (hdup : is_duplicate s q now = false)
    (hsearch : search_documents (translate_to_english det tO q).1 sO = .ok ⟨[]⟩) :
    (chat_step det tO sO gO s q now).session =
      update_session s q
        (if detect_language det q == "fr" then noContextAnswerFr else noContextAnswerEn) now ∧
    (chat_step det tO sO gO s q now).session.last_question = some q ∧
    (chat_step det tO sO gO s q now).session.last_time = some now ∧
    (∃ rest, (chat_step det tO sO gO s q now).session.chat_history =
      rest ++ [⟨"user", q⟩, ⟨"assistant",
        if detect_language det q == "fr" then noContextAnswerFr else noContextAnswerEn⟩]) ∧
    (∀ det2 tO2 sO2 gO2 now2, now2 - now < RATE_LIMIT_SECONDS →
      (chat_step det2 tO2 sO2 gO2 (chat_step det tO sO gO s q now).session q now2).result =
        .error (.rateLimited
          (if detect_language det2 q == "fr" then duplicateMsgFr else duplicateMsgEn)) ∧
      (chat_step det2 tO2 sO2 gO2 (chat_step det tO sO gO s q now).session q now2).session =
        (chat_step det tO sO gO s q now).session) := by
  rw [chat_step_empty_branch det tO sO gO s q now hdup hsearch]
  refine ⟨rfl, rfl, rfl, update_session_history_ends s q _ now, ?_⟩
  intro det2 tO2 sO2 gO2 now2 hwin
  have hdup2 := is_duplicate_after_update s q
    (if detect_language det q == "fr" then noContextAnswerFr else noContextAnswerEn) now now2 hwin
  rw [chat_step_duplicate_branch det2 tO2 sO2 gO2 _ q now2 hdup2]
  exact ⟨rfl, rfl⟩

/-- Claim C10, witness: a concrete unanswerable question updates the
fresh session and its immediate resubmission one second later is
rate-limited. -/
theorem empty_context_updates_session_witness :
    (chat_step (fun _ => some "en") .timeout (fun _ => .success ⟨[]⟩) .timeout
      (freshSession 0) "weird question" 10).session.last_question = some "weird question" ∧
    (chat_step (fun _ => some "en") .timeout (fun _ => .success ⟨[]⟩) .timeout
      (chat_step (fun _ => some "en") .timeout (fun _ => .success ⟨[]⟩) .timeout
        (freshSession 0) "weird question" 10).session "weird question" 11).result =
      .error (.rateLimited duplicateMsgEn) := by
  have h := empty_context_updates_session (fun _ => some "en") .timeout
    (fun _ => .success ⟨[]⟩) .timeout (freshSession 0) "weird question" 10 rfl rfl
  exact ⟨h.2.1, (h.2.2.2.2 (fun _ => some "en") .timeout (fun _ => .success ⟨[]⟩) .timeout
    11 (by simp [RATE_LIMIT_SECONDS])).1⟩

end StageTI
